import Mathlib

/-!
Shallow embedding of `graphein/protein/resi_atoms.py` (static chemistry
tables and the sklearn-based feature standardization performed at module
load), together with proofs about the embedded definitions.

Conventions:
* Python dicts become association lists `List (String × _)` in insertion
  order (Python dicts preserve insertion order, and `dict.values()` /
  `dict.items()` enumerate in that order).
* Python floats become exact rationals `ℚ`; the decimal literals are
  transcribed verbatim from the source.
* `sklearn.preprocessing.StandardScaler` is modelled by its documented
  behaviour: `fit` stores the feature mean and the population variance
  (denominator `N`), the scale is the square root of the variance with a
  zero scale replaced by `1` (`_handle_zeros_in_scale`), and `transform`
  maps each entry `x` of the input array to `(x - mean) / scale`,
  preserving the array shape.
-/

set_option maxRecDepth 40000
set_option maxHeartbeats 4000000

namespace ResiAtoms

/-- Python dict subscription `t[k]` on an association list: the value at
the first matching key, `none` when the key is absent (Python raises
`KeyError` there). -/
def assocLookup {α : Type} (t : List (String × α)) (k : String) : Option α :=
  (t.find? (fun p => p.1 == k)).map Prod.snd

/-- Reversal of a two-character key (`"AC" ↦ "CA"`); other strings are
returned unchanged.  Used to relate the `a+b` and `b+a` keys of the
distance matrices. -/
def swapKey (s : String) : String :=
  match s.data with
  | [c, d] => String.mk [d, c]
  | _ => s

/-- Embeds the `ISOELECTRIC_POINTS` dict of `resi_atoms.py` (insertion order preserved). -/
def ISOELECTRIC_POINTS : List (String × ℚ) := [
  ("ALA", 6.11),
  ("ARG", 10.76),
  ("ASN", 10.76),
  ("ASP", 2.98),
  ("ASX", 6.87),
  ("CYS", 5.02),
  ("GLN", 5.65),
  ("GLU", 3.08),
  ("GLX", 4.35),
  ("GLY", 6.06),
  ("HIS", 7.64),
  ("ILE", 6.04),
  ("LEU", 6.04),
  ("LYS", 9.74),
  ("MET", 5.74),
  ("PHE", 5.91),
  ("PRO", 6.3),
  ("SER", 5.68),
  ("THR", 5.6),
  ("TRP", 5.88),
  ("TYR", 5.63),
  ("UNK", 7.0),
  ("VAL", 6.02)]

/-- Embeds the `MOLECULAR_WEIGHTS` dict of `resi_atoms.py` (insertion order preserved). -/
def MOLECULAR_WEIGHTS : List (String × ℚ) := [
  ("ALA", 89.0935),
  ("ARG", 174.2017),
  ("ASN", 132.1184),
  ("ASP", 133.1032),
  ("ASX", 132.6108),
  ("CYS", 121.159),
  ("GLN", 146.1451),
  ("GLU", 147.1299),
  ("GLX", 146.6375),
  ("GLY", 75.0669),
  ("HIS", 155.1552),
  ("ILE", 131.1736),
  ("LEU", 131.1736),
  ("LYS", 146.1882),
  ("MET", 149.2124),
  ("PHE", 165.19),
  ("PRO", 115.131),
  ("SER", 105.093),
  ("THR", 119.1197),
  ("TRP", 204.2262),
  ("TYR", 181.1894),
  ("UNK", 137.1484),
  ("VAL", 117.1469)]

/-- Embeds the `HYDROGEN_BOND_DONORS` dict of `resi_atoms.py` (per-residue
donor-atom hydrogen-bond counts; residues without donors are absent). -/
def HYDROGEN_BOND_DONORS : List (String × List (String × ℕ)) := [
  ("ARG", [("NE", 1), ("NH1", 2), ("NH2", 2)]),
  ("ASN", [("ND2", 2)]),
  ("GLN", [("NE2", 2)]),
  ("HIS", [("ND1", 2), ("NE2", 2)]),
  ("LYS", [("NZ", 3)]),
  ("SER", [("OG", 1)]),
  ("THR", [("OG1", 1)]),
  ("TYR", [("OH", 1)]),
  ("TRP", [("NE1", 1)])]

/-- Embeds the `BOND_LENGTHS` dict of `resi_atoms.py` (idealised single,
double and triple bond lengths `i_s`, `i_d`, `i_t` and watersheds
`w_sd`, `w_dt`, in Angstroms). -/
def BOND_LENGTHS : List (String × List (String × ℚ)) := [
  ("As-N", [("i_s", 1.86), ("i_d", 1.835), ("w_sd", 1.845)]),
  ("As-O", [("i_s", 1.71), ("i_d", 1.66), ("w_sd", 1.68)]),
  ("As-S", [("i_s", 2.28), ("i_d", 2.08), ("w_sd", 2.15)]),
  ("C-C", [("i_s", 1.49), ("i_d", 1.31), ("i_t", 1.18), ("w_sd", 1.38), ("w_dt", 1.21)]),
  ("C-N", [("i_s", 1.42), ("i_d", 1.32), ("i_t", 1.14), ("w_sd", 1.34), ("w_dt", 1.2)]),
  ("C-O", [("i_s", 1.41), ("i_d", 1.22), ("w_sd", 1.28)]),
  ("C-S", [("i_s", 1.78), ("i_d", 1.68), ("w_sd", 1.7)]),
  ("C-Te", [("i_s", 2.2), ("i_d", 1.8), ("w_sd", 2.1)]),
  ("N-N", [("i_s", 1.4), ("i_d", 1.22), ("w_sd", 1.32)]),
  ("N-O", [("i_s", 1.39), ("i_d", 1.22), ("w_sd", 1.25)]),
  ("N-P", [("i_s", 1.69), ("i_d", 1.59), ("w_sd", 1.62)]),
  ("N-S", [("i_s", 1.66), ("i_d", 1.54), ("w_sd", 1.58)]),
  ("N-Se", [("i_s", 1.83), ("i_d", 1.79), ("w_sd", 1.8)]),
  ("O-P", [("i_s", 1.6), ("i_d", 1.48), ("w_sd", 1.52)]),
  ("O-S", [("i_s", 1.58), ("i_d", 1.45), ("w_sd", 1.54)]),
  ("P-P", [("i_s", 2.23), ("i_d", 2.04), ("w_sd", 2.06)])]

/-- Embeds the `BOND_ORDERS` dict of `resi_atoms.py` (allowable bond orders
per covalent bond type). -/
def BOND_ORDERS : List (String × List ℕ) := [
  ("As-N", [1, 2]),
  ("As-O", [1, 2]),
  ("As-S", [1, 2]),
  ("C-C", [1, 2, 3]),
  ("C-N", [1, 2, 3]),
  ("C-O", [1, 2]),
  ("C-S", [1, 2]),
  ("C-Te", [1, 2]),
  ("N-N", [1, 2]),
  ("N-O", [1, 2]),
  ("N-P", [1, 2]),
  ("N-S", [1, 2]),
  ("N-Se", [1, 2]),
  ("O-P", [1, 2]),
  ("O-S", [1, 2]),
  ("P-P", [1, 2])]

/-- Arithmetic mean of a list of rationals; this is the `mean_` computed by
`StandardScaler.fit` on the column vector of the dict's values. -/
def listMean (xs : List ℚ) : ℚ := xs.sum / xs.length

/-- Population variance (denominator `N`, not `N - 1`); this is the `var_`
computed by `StandardScaler.fit`. -/
def popVar (xs : List ℚ) : ℚ := (xs.map (fun x => (x - listMean xs) ^ 2)).sum / xs.length

/-- Population standard deviation, the square root of `popVar`. -/
noncomputable def popStd (xs : List ℚ) : ℝ := Real.sqrt (popVar xs)

/-- The `scale_` attribute of a fitted `StandardScaler`: the population
standard deviation, except that a zero standard deviation is replaced by
`1` (sklearn's `_handle_zeros_in_scale`), so `transform` never divides by
zero. -/
noncomputable def scalerScale (xs : List ℚ) : ℝ :=
  if popVar xs = 0 then 1 else popStd xs

/-- The scalar produced by `scaler.transform` for one raw value `v`, when
the scaler was fitted on the value list `xs`: `(v - mean) / scale`. -/
noncomputable def stdValue (xs : List ℚ) (v : ℚ) : ℝ :=
  ((v : ℝ) - (listMean xs : ℝ)) / scalerScale xs

/-- Embeds the dict comprehension
`{k: scaler.transform(np.array([v]).reshape(-1, 1)) for k, v in tbl.items()}`
after `scaler.fit` on `tbl`'s values: each value is the `(1, 1)` numpy
array `[[ (v - mean) / scale ]]`, modelled as a one-element list of
one-element lists. -/
noncomputable def standardizeTable (tbl : List (String × ℚ)) : List (String × List (List ℝ)) :=
  tbl.map (fun p => (p.1, [[stdValue (tbl.map Prod.snd) p.2]]))

/-- Embeds `ISOELECTRIC_POINTS_STD` of `resi_atoms.py`: the scaler is
fitted on the isoelectric-point values and applied to each entry. -/
noncomputable def ISOELECTRIC_POINTS_STD : List (String × List (List ℝ)) :=
  standardizeTable ISOELECTRIC_POINTS

/-- Embeds `MOLECULAR_WEIGHTS_STD` of `resi_atoms.py`: the scaler is
refitted on the molecular-weight values and applied to each entry. -/
noncomputable def MOLECULAR_WEIGHTS_STD : List (String × List (List ℝ)) :=
  standardizeTable MOLECULAR_WEIGHTS

/-- Embeds the `GRANTHAM_CHEMICAL_DISTANCE_MATRIX` dict of `resi_atoms.py`. -/
def GRANTHAM_CHEMICAL_DISTANCE_MATRIX : List (String × ℚ) := [
  ("AA", 0.0),
  ("AC", 0.112),
  ("AD", 0.819),
  ("AE", 0.827),
  ("AF", 0.54),
  ("AG", 0.208),
  ("AH", 0.696),
  ("AI", 0.407),
  ("AK", 0.891),
  ("AL", 0.406),
  ("AM", 0.379),
  ("AN", 0.318),
  ("AP", 0.191),
  ("AQ", 0.372),
  ("AR", 1.0),
  ("AS", 0.094),
  ("AT", 0.22),
  ("AV", 0.273),
  ("AW", 0.739),
  ("AY", 0.552),
  ("CA", 0.114),
  ("CC", 0.0),
  ("CD", 0.847),
  ("CE", 0.838),
  ("CF", 0.437),
  ("CG", 0.32),
  ("CH", 0.66),
  ("CI", 0.304),
  ("CK", 0.887),
  ("CL", 0.301),
  ("CM", 0.277),
  ("CN", 0.324),
  ("CP", 0.157),
  ("CQ", 0.341),
  ("CR", 1.0),
  ("CS", 0.176),
  ("CT", 0.233),
  ("CV", 0.167),
  ("CW", 0.639),
  ("CY", 0.457),
  ("DA", 0.729),
  ("DC", 0.742),
  ("DD", 0.0),
  ("DE", 0.124),
  ("DF", 0.924),
  ("DG", 0.697),
  ("DH", 0.435),
  ("DI", 0.847),
  ("DK", 0.249),
  ("DL", 0.841),
  ("DM", 0.819),
  ("DN", 0.56),
  ("DP", 0.657),
  ("DQ", 0.584),
  ("DR", 0.295),
  ("DS", 0.667),
  ("DT", 0.649),
  ("DV", 0.797),
  ("DW", 1.0),
  ("DY", 0.836),
  ("EA", 0.79),
  ("EC", 0.788),
  ("ED", 0.133),
  ("EE", 0.0),
  ("EF", 0.932),
  ("EG", 0.779),
  ("EH", 0.406),
  ("EI", 0.86),
  ("EK", 0.143),
  ("EL", 0.854),
  ("EM", 0.83),
  ("EN", 0.599),
  ("EP", 0.688),
  ("EQ", 0.598),
  ("ER", 0.234),
  ("ES", 0.726),
  ("ET", 0.682),
  ("EV", 0.824),
  ("EW", 1.0),
  ("EY", 0.837),
  ("FA", 0.508),
  ("FC", 0.405),
  ("FD", 0.977),
  ("FE", 0.918),
  ("FF", 0.0),
  ("FG", 0.69),
  ("FH", 0.663),
  ("FI", 0.128),
  ("FK", 0.903),
  ("FL", 0.131),
  ("FM", 0.169),
  ("FN", 0.541),
  ("FP", 0.42),
  ("FQ", 0.459),
  ("FR", 1.0),
  ("FS", 0.548),
  ("FT", 0.499),
  ("FV", 0.252),
  ("FW", 0.207),
  ("FY", 0.179),
  ("GA", 0.206),
  ("GC", 0.312),
  ("GD", 0.776),
  ("GE", 0.807),
  ("GF", 0.727),
  ("GG", 0.0),
  ("GH", 0.769),
  ("GI", 0.592),
  ("GK", 0.894),
  ("GL", 0.591),
  ("GM", 0.557),
  ("GN", 0.381),
  ("GP", 0.323),
  ("GQ", 0.467),
  ("GR", 1.0),
  ("GS", 0.158),
  ("GT", 0.272),
  ("GV", 0.464),
  ("GW", 0.923),
  ("GY", 0.728),
  ("HA", 0.896),
  ("HC", 0.836),
  ("HD", 0.629),
  ("HE", 0.547),
  ("HF", 0.907),
  ("HG", 1.0),
  ("HH", 0.0),
  ("HI", 0.848),
  ("HK", 0.566),
  ("HL", 0.842),
  ("HM", 0.825),
  ("HN", 0.754),
  ("HP", 0.777),
  ("HQ", 0.716),
  ("HR", 0.697),
  ("HS", 0.865),
  ("HT", 0.834),
  ("HV", 0.831),
  ("HW", 0.981),
  ("HY", 0.821),
  ("IA", 0.403),
  ("IC", 0.296),
  ("ID", 0.942),
  ("IE", 0.891),
  ("IF", 0.134),
  ("IG", 0.592),
  ("IH", 0.652),
  ("II", 0.0),
  ("IK", 0.892),
  ("IL", 0.013),
  ("IM", 0.057),
  ("IN", 0.457),
  ("IP", 0.311),
  ("IQ", 0.383),
  ("IR", 1.0),
  ("IS", 0.443),
  ("IT", 0.396),
  ("IV", 0.133),
  ("IW", 0.339),
  ("IY", 0.213),
  ("KA", 0.889),
  ("KC", 0.871),
  ("KD", 0.279),
  ("KE", 0.149),
  ("KF", 0.957),
  ("KG", 0.9),
  ("KH", 0.438),
  ("KI", 0.899),
  ("KK", 0.0),
  ("KL", 0.892),
  ("KM", 0.871),
  ("KN", 0.667),
  ("KP", 0.757),
  ("KQ", 0.639),
  ("KR", 0.154),
  ("KS", 0.825),
  ("KT", 0.759),
  ("KV", 0.882),
  ("KW", 1.0),
  ("KY", 0.848),
  ("LA", 0.405),
  ("LC", 0.296),
  ("LD", 0.944),
  ("LE", 0.892),
  ("LF", 0.139),
  ("LG", 0.596),
  ("LH", 0.653),
  ("LI", 0.013),
  ("LK", 0.893),
  ("LL", 0.0),
  ("LM", 0.062),
  ("LN", 0.452),
  ("LP", 0.309),
  ("LQ", 0.376),
  ("LR", 1.0),
  ("LS", 0.443),
  ("LT", 0.397),
  ("LV", 0.133),
  ("LW", 0.341),
  ("LY", 0.205),
  ("MA", 0.383),
  ("MC", 0.276),
  ("MD", 0.932),
  ("ME", 0.879),
  ("MF", 0.182),
  ("MG", 0.569),
  ("MH", 0.648),
  ("MI", 0.058),
  ("MK", 0.884),
  ("ML", 0.062),
  ("MM", 0.0),
  ("MN", 0.447),
  ("MP", 0.285),
  ("MQ", 0.372),
  ("MR", 1.0),
  ("MS", 0.417),
  ("MT", 0.358),
  ("MV", 0.12),
  ("MW", 0.391),
  ("MY", 0.255),
  ("NA", 0.424),
  ("NC", 0.425),
  ("ND", 0.838),
  ("NE", 0.835),
  ("NF", 0.766),
  ("NG", 0.512),
  ("NH", 0.78),
  ("NI", 0.615),
  ("NK", 0.891),
  ("NL", 0.603),
  ("NM", 0.588),
  ("NN", 0.0),
  ("NP", 0.266),
  ("NQ", 0.175),
  ("NR", 1.0),
  ("NS", 0.361),
  ("NT", 0.368),
  ("NV", 0.503),
  ("NW", 0.945),
  ("NY", 0.641),
  ("PA", 0.22),
  ("PC", 0.179),
  ("PD", 0.852),
  ("PE", 0.831),
  ("PF", 0.515),
  ("PG", 0.376),
  ("PH", 0.696),
  ("PI", 0.363),
  ("PK", 0.875),
  ("PL", 0.357),
  ("PM", 0.326),
  ("PN", 0.231),
  ("PP", 0.0),
  ("PQ", 0.228),
  ("PR", 1.0),
  ("PS", 0.196),
  ("PT", 0.161),
  ("PV", 0.244),
  ("PW", 0.72),
  ("PY", 0.481),
  ("QA", 0.512),
  ("QC", 0.462),
  ("QD", 0.903),
  ("QE", 0.861),
  ("QF", 0.671),
  ("QG", 0.648),
  ("QH", 0.765),
  ("QI", 0.532),
  ("QK", 0.881),
  ("QL", 0.518),
  ("QM", 0.505),
  ("QN", 0.181),
  ("QP", 0.272),
  ("QQ", 0.0),
  ("QR", 1.0),
  ("QS", 0.461),
  ("QT", 0.389),
  ("QV", 0.464),
  ("QW", 0.831),
  ("QY", 0.522),
  ("RA", 0.919),
  ("RC", 0.905),
  ("RD", 0.305),
  ("RE", 0.225),
  ("RF", 0.977),
  ("RG", 0.928),
  ("RH", 0.498),
  ("RI", 0.929),
  ("RK", 0.141),
  ("RL", 0.92),
  ("RM", 0.908),
  ("RN", 0.69),
  ("RP", 0.796),
  ("RQ", 0.668),
  ("RR", 0.0),
  ("RS", 0.86),
  ("RT", 0.808),
  ("RV", 0.914),
  ("RW", 1.0),
  ("RY", 0.859),
  ("SA", 0.1),
  ("SC", 0.185),
  ("SD", 0.801),
  ("SE", 0.812),
  ("SF", 0.622),
  ("SG", 0.17),
  ("SH", 0.718),
  ("SI", 0.478),
  ("SK", 0.883),
  ("SL", 0.474),
  ("SM", 0.44),
  ("SN", 0.289),
  ("SP", 0.181),
  ("SQ", 0.358),
  ("SR", 1.0),
  ("SS", 0.0),
  ("ST", 0.174),
  ("SV", 0.342),
  ("SW", 0.827),
  ("SY", 0.615),
  ("TA", 0.251),
  ("TC", 0.261),
  ("TD", 0.83),
  ("TE", 0.812),
  ("TF", 0.604),
  ("TG", 0.312),
  ("TH", 0.737),
  ("TI", 0.455),
  ("TK", 0.866),
  ("TL", 0.453),
  ("TM", 0.403),
  ("TN", 0.315),
  ("TP", 0.159),
  ("TQ", 0.322),
  ("TR", 1.0),
  ("TS", 0.185),
  ("TT", 0.0),
  ("TV", 0.345),
  ("TW", 0.816),
  ("TY", 0.596),
  ("VA", 0.275),
  ("VC", 0.165),
  ("VD", 0.9),
  ("VE", 0.867),
  ("VF", 0.269),
  ("VG", 0.471),
  ("VH", 0.649),
  ("VI", 0.135),
  ("VK", 0.889),
  ("VL", 0.134),
  ("VM", 0.12),
  ("VN", 0.38),
  ("VP", 0.212),
  ("VQ", 0.339),
  ("VR", 1.0),
  ("VS", 0.322),
  ("VT", 0.305),
  ("VV", 0.0),
  ("VW", 0.472),
  ("VY", 0.31),
  ("WA", 0.658),
  ("WC", 0.56),
  ("WD", 1.0),
  ("WE", 0.931),
  ("WF", 0.196),
  ("WG", 0.829),
  ("WH", 0.678),
  ("WI", 0.305),
  ("WK", 0.892),
  ("WL", 0.304),
  ("WM", 0.344),
  ("WN", 0.631),
  ("WP", 0.555),
  ("WQ", 0.538),
  ("WR", 0.968),
  ("WS", 0.689),
  ("WT", 0.638),
  ("WV", 0.418),
  ("WW", 0.0),
  ("WY", 0.204),
  ("YA", 0.587),
  ("YC", 0.478),
  ("YD", 1.0),
  ("YE", 0.932),
  ("YF", 0.202),
  ("YG", 0.782),
  ("YH", 0.678),
  ("YI", 0.23),
  ("YK", 0.904),
  ("YL", 0.219),
  ("YM", 0.268),
  ("YN", 0.512),
  ("YP", 0.444),
  ("YQ", 0.404),
  ("YR", 0.995),
  ("YS", 0.612),
  ("YT", 0.557),
  ("YV", 0.328),
  ("YW", 0.244),
  ("YY", 0.0)]

/-- Embeds the `SCHNEIDER_WREDE_DISTMAT` dict of `resi_atoms.py`. -/
def SCHNEIDER_WREDE_DISTMAT : List (String × ℚ) := [
  ("GW", 0.923),
  ("GV", 0.464),
  ("GT", 0.272),
  ("GS", 0.158),
  ("GR", 1.0),
  ("GQ", 0.467),
  ("GP", 0.323),
  ("GY", 0.728),
  ("GG", 0.0),
  ("GF", 0.727),
  ("GE", 0.807),
  ("GD", 0.776),
  ("GC", 0.312),
  ("GA", 0.206),
  ("GN", 0.381),
  ("GM", 0.557),
  ("GL", 0.591),
  ("GK", 0.894),
  ("GI", 0.592),
  ("GH", 0.769),
  ("ME", 0.879),
  ("MD", 0.932),
  ("MG", 0.569),
  ("MF", 0.182),
  ("MA", 0.383),
  ("MC", 0.276),
  ("MM", 0.0),
  ("ML", 0.062),
  ("MN", 0.447),
  ("MI", 0.058),
  ("MH", 0.648),
  ("MK", 0.884),
  ("MT", 0.358),
  ("MW", 0.391),
  ("MV", 0.12),
  ("MQ", 0.372),
  ("MP", 0.285),
  ("MS", 0.417),
  ("MR", 1.0),
  ("MY", 0.255),
  ("FP", 0.42),
  ("FQ", 0.459),
  ("FR", 1.0),
  ("FS", 0.548),
  ("FT", 0.499),
  ("FV", 0.252),
  ("FW", 0.207),
  ("FY", 0.179),
  ("FA", 0.508),
  ("FC", 0.405),
  ("FD", 0.977),
  ("FE", 0.918),
  ("FF", 0.0),
  ("FG", 0.69),
  ("FH", 0.663),
  ("FI", 0.128),
  ("FK", 0.903),
  ("FL", 0.131),
  ("FM", 0.169),
  ("FN", 0.541),
  ("SY", 0.615),
  ("SS", 0.0),
  ("SR", 1.0),
  ("SQ", 0.358),
  ("SP", 0.181),
  ("SW", 0.827),
  ("SV", 0.342),
  ("ST", 0.174),
  ("SK", 0.883),
  ("SI", 0.478),
  ("SH", 0.718),
  ("SN", 0.289),
  ("SM", 0.44),
  ("SL", 0.474),
  ("SC", 0.185),
  ("SA", 0.1),
  ("SG", 0.17),
  ("SF", 0.622),
  ("SE", 0.812),
  ("SD", 0.801),
  ("YI", 0.23),
  ("YH", 0.678),
  ("YK", 0.904),
  ("YM", 0.268),
  ("YL", 0.219),
  ("YN", 0.512),
  ("YA", 0.587),
  ("YC", 0.478),
  ("YE", 0.932),
  ("YD", 1.0),
  ("YG", 0.782),
  ("YF", 0.202),
  ("YY", 0.0),
  ("YQ", 0.404),
  ("YP", 0.444),
  ("YS", 0.612),
  ("YR", 0.995),
  ("YT", 0.557),
  ("YW", 0.244),
  ("YV", 0.328),
  ("LF", 0.139),
  ("LG", 0.596),
  ("LD", 0.944),
  ("LE", 0.892),
  ("LC", 0.296),
  ("LA", 0.405),
  ("LN", 0.452),
  ("LL", 0.0),
  ("LM", 0.062),
  ("LK", 0.893),
  ("LH", 0.653),
  ("LI", 0.013),
  ("LV", 0.133),
  ("LW", 0.341),
  ("LT", 0.397),
  ("LR", 1.0),
  ("LS", 0.443),
  ("LP", 0.309),
  ("LQ", 0.376),
  ("LY", 0.205),
  ("RT", 0.808),
  ("RV", 0.914),
  ("RW", 1.0),
  ("RP", 0.796),
  ("RQ", 0.668),
  ("RR", 0.0),
  ("RS", 0.86),
  ("RY", 0.859),
  ("RD", 0.305),
  ("RE", 0.225),
  ("RF", 0.977),
  ("RG", 0.928),
  ("RA", 0.919),
  ("RC", 0.905),
  ("RL", 0.92),
  ("RM", 0.908),
  ("RN", 0.69),
  ("RH", 0.498),
  ("RI", 0.929),
  ("RK", 0.141),
  ("VH", 0.649),
  ("VI", 0.135),
  ("EM", 0.83),
  ("EL", 0.854),
  ("EN", 0.599),
  ("EI", 0.86),
  ("EH", 0.406),
  ("EK", 0.143),
  ("EE", 0.0),
  ("ED", 0.133),
  ("EG", 0.779),
  ("EF", 0.932),
  ("EA", 0.79),
  ("EC", 0.788),
  ("VM", 0.12),
  ("EY", 0.837),
  ("VN", 0.38),
  ("ET", 0.682),
  ("EW", 1.0),
  ("EV", 0.824),
  ("EQ", 0.598),
  ("EP", 0.688),
  ("ES", 0.726),
  ("ER", 0.234),
  ("VP", 0.212),
  ("VQ", 0.339),
  ("VR", 1.0),
  ("VT", 0.305),
  ("VW", 0.472),
  ("KC", 0.871),
  ("KA", 0.889),
  ("KG", 0.9),
  ("KF", 0.957),
  ("KE", 0.149),
  ("KD", 0.279),
  ("KK", 0.0),
  ("KI", 0.899),
  ("KH", 0.438),
  ("KN", 0.667),
  ("KM", 0.871),
  ("KL", 0.892),
  ("KS", 0.825),
  ("KR", 0.154),
  ("KQ", 0.639),
  ("KP", 0.757),
  ("KW", 1.0),
  ("KV", 0.882),
  ("KT", 0.759),
  ("KY", 0.848),
  ("DN", 0.56),
  ("DL", 0.841),
  ("DM", 0.819),
  ("DK", 0.249),
  ("DH", 0.435),
  ("DI", 0.847),
  ("DF", 0.924),
  ("DG", 0.697),
  ("DD", 0.0),
  ("DE", 0.124),
  ("DC", 0.742),
  ("DA", 0.729),
  ("DY", 0.836),
  ("DV", 0.797),
  ("DW", 1.0),
  ("DT", 0.649),
  ("DR", 0.295),
  ("DS", 0.667),
  ("DP", 0.657),
  ("DQ", 0.584),
  ("QQ", 0.0),
  ("QP", 0.272),
  ("QS", 0.461),
  ("QR", 1.0),
  ("QT", 0.389),
  ("QW", 0.831),
  ("QV", 0.464),
  ("QY", 0.522),
  ("QA", 0.512),
  ("QC", 0.462),
  ("QE", 0.861),
  ("QD", 0.903),
  ("QG", 0.648),
  ("QF", 0.671),
  ("QI", 0.532),
  ("QH", 0.765),
  ("QK", 0.881),
  ("QM", 0.505),
  ("QL", 0.518),
  ("QN", 0.181),
  ("WG", 0.829),
  ("WF", 0.196),
  ("WE", 0.931),
  ("WD", 1.0),
  ("WC", 0.56),
  ("WA", 0.658),
  ("WN", 0.631),
  ("WM", 0.344),
  ("WL", 0.304),
  ("WK", 0.892),
  ("WI", 0.305),
  ("WH", 0.678),
  ("WW", 0.0),
  ("WV", 0.418),
  ("WT", 0.638),
  ("WS", 0.689),
  ("WR", 0.968),
  ("WQ", 0.538),
  ("WP", 0.555),
  ("WY", 0.204),
  ("PR", 1.0),
  ("PS", 0.196),
  ("PP", 0.0),
  ("PQ", 0.228),
  ("PV", 0.244),
  ("PW", 0.72),
  ("PT", 0.161),
  ("PY", 0.481),
  ("PC", 0.179),
  ("PA", 0.22),
  ("PF", 0.515),
  ("PG", 0.376),
  ("PD", 0.852),
  ("PE", 0.831),
  ("PK", 0.875),
  ("PH", 0.696),
  ("PI", 0.363),
  ("PN", 0.231),
  ("PL", 0.357),
  ("PM", 0.326),
  ("CK", 0.887),
  ("CI", 0.304),
  ("CH", 0.66),
  ("CN", 0.324),
  ("CM", 0.277),
  ("CL", 0.301),
  ("CC", 0.0),
  ("CA", 0.114),
  ("CG", 0.32),
  ("CF", 0.437),
  ("CE", 0.838),
  ("CD", 0.847),
  ("CY", 0.457),
  ("CS", 0.176),
  ("CR", 1.0),
  ("CQ", 0.341),
  ("CP", 0.157),
  ("CW", 0.639),
  ("CV", 0.167),
  ("CT", 0.233),
  ("IY", 0.213),
  ("VA", 0.275),
  ("VC", 0.165),
  ("VD", 0.9),
  ("VE", 0.867),
  ("VF", 0.269),
  ("VG", 0.471),
  ("IQ", 0.383),
  ("IP", 0.311),
  ("IS", 0.443),
  ("IR", 1.0),
  ("VL", 0.134),
  ("IT", 0.396),
  ("IW", 0.339),
  ("IV", 0.133),
  ("II", 0.0),
  ("IH", 0.652),
  ("IK", 0.892),
  ("VS", 0.322),
  ("IM", 0.057),
  ("IL", 0.013),
  ("VV", 0.0),
  ("IN", 0.457),
  ("IA", 0.403),
  ("VY", 0.31),
  ("IC", 0.296),
  ("IE", 0.891),
  ("ID", 0.942),
  ("IG", 0.592),
  ("IF", 0.134),
  ("HY", 0.821),
  ("HR", 0.697),
  ("HS", 0.865),
  ("HP", 0.777),
  ("HQ", 0.716),
  ("HV", 0.831),
  ("HW", 0.981),
  ("HT", 0.834),
  ("HK", 0.566),
  ("HH", 0.0),
  ("HI", 0.848),
  ("HN", 0.754),
  ("HL", 0.842),
  ("HM", 0.825),
  ("HC", 0.836),
  ("HA", 0.896),
  ("HF", 0.907),
  ("HG", 1.0),
  ("HD", 0.629),
  ("HE", 0.547),
  ("NH", 0.78),
  ("NI", 0.615),
  ("NK", 0.891),
  ("NL", 0.603),
  ("NM", 0.588),
  ("NN", 0.0),
  ("NA", 0.424),
  ("NC", 0.425),
  ("ND", 0.838),
  ("NE", 0.835),
  ("NF", 0.766),
  ("NG", 0.512),
  ("NY", 0.641),
  ("NP", 0.266),
  ("NQ", 0.175),
  ("NR", 1.0),
  ("NS", 0.361),
  ("NT", 0.368),
  ("NV", 0.503),
  ("NW", 0.945),
  ("TY", 0.596),
  ("TV", 0.345),
  ("TW", 0.816),
  ("TT", 0.0),
  ("TR", 1.0),
  ("TS", 0.185),
  ("TP", 0.159),
  ("TQ", 0.322),
  ("TN", 0.315),
  ("TL", 0.453),
  ("TM", 0.403),
  ("TK", 0.866),
  ("TH", 0.737),
  ("TI", 0.455),
  ("TF", 0.604),
  ("TG", 0.312),
  ("TD", 0.83),
  ("TE", 0.812),
  ("TC", 0.261),
  ("TA", 0.251),
  ("AA", 0.0),
  ("AC", 0.112),
  ("AE", 0.827),
  ("AD", 0.819),
  ("AG", 0.208),
  ("AF", 0.54),
  ("AI", 0.407),
  ("AH", 0.696),
  ("AK", 0.891),
  ("AM", 0.379),
  ("AL", 0.406),
  ("AN", 0.318),
  ("AQ", 0.372),
  ("AP", 0.191),
  ("AS", 0.094),
  ("AR", 1.0),
  ("AT", 0.22),
  ("AW", 0.739),
  ("AV", 0.273),
  ("AY", 0.552),
  ("VK", 0.889)]

/-- Index permutation relating the two distance matrices: entry `i` of
`SCHNEIDER_WREDE_DISTMAT` equals entry `swPerm[i]` of
`GRANTHAM_CHEMICAL_DISTANCE_MATRIX` (the two dicts have identical content,
enumerated in different orders). -/
def swPerm : List ℕ := [118, 117, 116, 115, 114, 113, 112, 119, 105, 104, 103, 102, 101, 100, 111, 110, 109, 108, 107, 106, 203, 202, 205, 204, 200, 201, 210, 209, 211, 207, 206, 208, 216, 218, 217, 213, 212, 215, 214, 219, 92, 93, 94, 95, 96, 97, 98, 99, 80, 81, 82, 83, 84, 85, 86, 87, 88, 89, 90, 91, 319, 315, 314, 313, 312, 318, 317, 316, 308, 307, 306, 311, 310, 309, 301, 300, 305, 304, 303, 302, 387, 386, 388, 390, 389, 391, 380, 381, 383, 382, 385, 384, 399, 393, 392, 395, 394, 396, 398, 397, 184, 185, 182, 183, 181, 180, 191, 189, 190, 188, 186, 187, 197, 198, 196, 194, 195, 192, 193, 199, 296, 297, 298, 292, 293, 294, 295, 299, 282, 283, 284, 285, 280, 281, 289, 290, 291, 286, 287, 288, 346, 347, 70, 69, 71, 67, 66, 68, 63, 62, 65, 64, 60, 61, 350, 79, 351, 76, 78, 77, 73, 72, 75, 74, 352, 353, 354, 356, 358, 161, 160, 165, 164, 163, 162, 168, 167, 166, 171, 170, 169, 175, 174, 173, 172, 178, 177, 176, 179, 51, 49, 50, 48, 46, 47, 44, 45, 42, 43, 41, 40, 59, 57, 58, 56, 54, 55, 52, 53, 273, 272, 275, 274, 276, 278, 277, 279, 260, 261, 263, 262, 265, 264, 267, 266, 268, 270, 269, 271, 365, 364, 363, 362, 361, 360, 371, 370, 369, 368, 367, 366, 378, 377, 376, 375, 374, 373, 372, 379, 254, 255, 252, 253, 257, 258, 256, 259, 241, 240, 244, 245, 242, 243, 248, 246, 247, 251, 249, 250, 28, 27, 26, 31, 30, 29, 21, 20, 25, 24, 23, 22, 39, 35, 34, 33, 32, 38, 37, 36, 159, 340, 341, 342, 343, 344, 345, 153, 152, 155, 154, 349, 156, 158, 157, 147, 146, 148, 355, 150, 149, 357, 151, 140, 359, 141, 143, 142, 145, 144, 139, 134, 135, 132, 133, 137, 138, 136, 128, 126, 127, 131, 129, 130, 121, 120, 124, 125, 122, 123, 226, 227, 228, 229, 230, 231, 220, 221, 222, 223, 224, 225, 239, 232, 233, 234, 235, 236, 237, 238, 339, 337, 338, 336, 334, 335, 332, 333, 331, 329, 330, 328, 326, 327, 324, 325, 322, 323, 321, 320, 0, 1, 3, 2, 5, 4, 7, 6, 8, 10, 9, 11, 13, 12, 15, 14, 16, 18, 17, 19, 348]

/-- The twenty one-letter amino-acid codes, in the row/column order of the
distance-matrix keys. -/
def aminoLetters : List Char :=
  ['A', 'C', 'D', 'E', 'F', 'G', 'H', 'I', 'K', 'L',
   'M', 'N', 'P', 'Q', 'R', 'S', 'T', 'V', 'W', 'Y']

/-- Boolean check: entry `i` and entry `20 * (i % 20) + i / 20` (its mirror
under the sorted-key layout) of the table have values within `d` of each
other, for all `i < 400`. -/
def mirrorValCheck (t : List (String × ℚ)) (d : ℚ) : Bool :=
  (List.range 400).all fun i =>
    decide ((t.getD i ("", 0)).2 - (t.getD (20 * (i % 20) + i / 20) ("", 0)).2 ≤ d) &&
    decide ((t.getD (20 * (i % 20) + i / 20) ("", 0)).2 - (t.getD i ("", 0)).2 ≤ d)

/-- Boolean check: every entry whose key is a doubled letter has value `0`. -/
def selfZeroCheck (t : List (String × ℚ)) : Bool :=
  t.all fun p =>
    match p.1.data with
    | [c, d] => !(c == d) || decide (p.2 = 0)
    | _ => true

/-- Raw three-entry table of the end-to-end scenario in the spec
(`{"ALA": 89.0935, "GLY": 75.0669, "VAL": 117.1469}`). -/
def scenarioTable : List (String × ℚ) :=
  [("ALA", 89.0935), ("GLY", 75.0669), ("VAL", 117.1469)]

lemma grantham_length : GRANTHAM_CHEMICAL_DISTANCE_MATRIX.length = 400 := by
  with_unfolding_all rfl

lemma grantham_key_structure : ∀ i ∈ List.range 400,
    (GRANTHAM_CHEMICAL_DISTANCE_MATRIX.getD i ("", 0)).1 =
      String.mk [aminoLetters.getD (i / 20) 'A', aminoLetters.getD (i % 20) 'A'] := by
  decide

lemma grantham_mirror_bound :
    mirrorValCheck GRANTHAM_CHEMICAL_DISTANCE_MATRIX (83 / 250) = true := by
  with_unfolding_all rfl

lemma schneider_eq_map_perm :
    SCHNEIDER_WREDE_DISTMAT =
      swPerm.map (fun i => GRANTHAM_CHEMICAL_DISTANCE_MATRIX.getD i ("", 0)) := by
  with_unfolding_all (exact of_decide_eq_true rfl)

lemma swPerm_perm_range : swPerm.Perm (List.range 400) := by decide

lemma grantham_self_zero : selfZeroCheck GRANTHAM_CHEMICAL_DISTANCE_MATRIX = true := by
  with_unfolding_all rfl


lemma strExt {s t : String} (h : s.data = t.data) : s = t := by
  cases s; cases t; exact congrArg String.mk h

lemma strData_append (a b : String) : (a ++ b).data = a.data ++ b.data := by
  cases a; cases b; rfl

lemma strLength_data (s : String) : s.length = s.data.length := rfl

lemma swapKey_eq {s : String} {c d : Char} (h : s.data = [c, d]) :
    swapKey s = String.mk [d, c] := by
  unfold swapKey
  rw [h]

lemma assocLookup_mem {α : Type} {t : List (String × α)} {k : String} {v : α}
    (h : assocLookup t k = some v) : (k, v) ∈ t := by
  unfold assocLookup at h
  obtain ⟨p, hfind, hsnd⟩ := Option.map_eq_some'.mp h
  have hkey := List.find?_some hfind
  simp only [beq_iff_eq] at hkey
  have hp : p = (k, v) := Prod.ext hkey hsnd
  exact hp ▸ List.mem_of_find?_eq_some hfind

lemma assocLookup_eq_none_iff {α : Type} (t : List (String × α)) (k : String) :
    assocLookup t k = none ↔ k ∉ t.map Prod.fst := by
  unfold assocLookup
  rw [Option.map_eq_none', List.find?_eq_none]
  constructor
  · intro h hk
    obtain ⟨p, hp, hpk⟩ := List.mem_map.mp hk
    exact h p hp (by simpa using hpk)
  · intro h p hp hpk
    exact h (List.mem_map.mpr ⟨p, hp, by simpa using hpk⟩)

lemma assocLookup_map_value {α β : Type} (f : α → β) (t : List (String × α)) (k : String) :
    assocLookup (t.map (fun p => (p.1, f p.2))) k = (assocLookup t k).map f := by
  unfold assocLookup
  rw [List.find?_map, Option.map_map, Option.map_map]
  rfl

lemma getD_of_lt {α : Type} (l : List α) (d : α) (n : ℕ) (h : n < l.length) :
    l.getD n d = l[n] := by
  simp [List.getD_eq_getElem?_getD, List.getElem?_eq_getElem h]

lemma map_getD_range {α : Type} (l : List α) (d : α) :
    (List.range l.length).map (fun i => l.getD i d) = l := by
  induction l with
  | nil => rfl
  | cons a l ih =>
    have hcomp : ((fun i => (a :: l).getD i d) ∘ Nat.succ) = fun i => l.getD i d :=
      funext fun i => rfl
    rw [List.length_cons, List.range_succ_eq_map, List.map_cons, List.map_map, hcomp, ih]
    rfl

lemma sum_sq_zero {μ : ℚ} {xs : List ℚ}
    (h : (xs.map (fun x => (x - μ) ^ 2)).sum = 0) : ∀ x ∈ xs, x = μ := by
  induction xs with
  | nil => simp
  | cons a l ih =>
    rw [List.map_cons, List.sum_cons] at h
    have h1 : 0 ≤ (a - μ) ^ 2 := sq_nonneg _
    have h2 : 0 ≤ (l.map (fun x => (x - μ) ^ 2)).sum :=
      List.sum_nonneg (by rintro y hy; obtain ⟨x, _, rfl⟩ := List.mem_map.mp hy; exact sq_nonneg _)
    intro x hx
    rcases List.mem_cons.mp hx with rfl | hx
    · have ha : (x - μ) ^ 2 = 0 := by linarith
      have hz := (pow_eq_zero_iff two_ne_zero).mp ha
      linarith [sub_eq_zero.mp hz]
    · exact ih (by linarith) x hx

lemma popVar_eq_zero_forall {xs : List ℚ} (h : popVar xs = 0) :
    ∀ x ∈ xs, x = listMean xs := by
  intro x hx
  have hne : xs ≠ [] := by rintro rfl; simp at hx
  have hlen : ((xs.length : ℚ)) ≠ 0 :=
    Nat.cast_ne_zero.mpr fun h0 => hne (List.length_eq_zero.mp h0)
  unfold popVar at h
  rcases div_eq_zero_iff.mp h with h | h
  · exact sum_sq_zero h x hx
  · exact absurd h hlen

lemma popVar_ne_of_two {xs : List ℚ} {x y : ℚ} (hx : x ∈ xs) (hy : y ∈ xs)
    (hxy : x ≠ y) : popVar xs ≠ 0 := fun h =>
  hxy ((popVar_eq_zero_forall h x hx).trans (popVar_eq_zero_forall h y hy).symm)

lemma standardize_lookup (tbl : List (String × ℚ)) (k : String) :
    assocLookup (standardizeTable tbl) k =
      (assocLookup tbl k).map (fun v => [[stdValue (tbl.map Prod.snd) v]]) := by
  unfold standardizeTable
  exact assocLookup_map_value (fun v => [[stdValue (tbl.map Prod.snd) v]]) tbl k

lemma standardize_keys (tbl : List (String × ℚ)) :
    (standardizeTable tbl).map Prod.fst = tbl.map Prod.fst := by
  unfold standardizeTable
  rw [List.map_map]
  rfl

lemma standardize_degenerate (tbl : List (String × ℚ))
    (h : popVar (tbl.map Prod.snd) = 0) :
    standardizeTable tbl = tbl.map (fun p => (p.1, [[(0 : ℝ)]])) := by
  unfold standardizeTable
  apply List.map_congr_left
  intro p hp
  have hv : p.2 = listMean (tbl.map Prod.snd) :=
    popVar_eq_zero_forall h p.2 (List.mem_map_of_mem Prod.snd hp)
  simp [stdValue, scalerScale, h, hv]

lemma iso_popVar_ne : popVar (ISOELECTRIC_POINTS.map Prod.snd) ≠ 0 :=
  popVar_ne_of_two (x := 6.11) (y := 10.76)
    (List.mem_map_of_mem Prod.snd (List.mem_cons_self _ _))
    (List.mem_map_of_mem Prod.snd (List.mem_cons_of_mem _ (List.mem_cons_self _ _)))
    (by norm_num)

lemma mw_popVar_ne : popVar (MOLECULAR_WEIGHTS.map Prod.snd) ≠ 0 :=
  popVar_ne_of_two (x := 89.0935) (y := 174.2017)
    (List.mem_map_of_mem Prod.snd (List.mem_cons_self _ _))
    (List.mem_map_of_mem Prod.snd (List.mem_cons_of_mem _ (List.mem_cons_self _ _)))
    (by norm_num)

lemma aminoLetters_getD_inj : ∀ i ∈ List.range 20, ∀ j ∈ List.range 20,
    aminoLetters.getD i 'A' = aminoLetters.getD j 'A' → i = j := by decide

lemma grantham_entry_bound : ∀ p ∈ GRANTHAM_CHEMICAL_DISTANCE_MATRIX,
    ∀ q ∈ GRANTHAM_CHEMICAL_DISTANCE_MATRIX,
    q.1 = swapKey p.1 → |p.2 - q.2| ≤ 83 / 250 := by
  intro p hp q hq hk
  obtain ⟨i, hi, hpi⟩ := List.getElem_of_mem hp
  obtain ⟨j, hj, hqj⟩ := List.getElem_of_mem hq
  have hi4 : i < 400 := grantham_length ▸ hi
  have hj4 : j < 400 := grantham_length ▸ hj
  have hgi : GRANTHAM_CHEMICAL_DISTANCE_MATRIX.getD i ("", 0) = p := by
    rw [getD_of_lt _ _ _ hi, hpi]
  have hgj : GRANTHAM_CHEMICAL_DISTANCE_MATRIX.getD j ("", 0) = q := by
    rw [getD_of_lt _ _ _ hj, hqj]
  have hkey_i : p.1 = String.mk [aminoLetters.getD (i / 20) 'A', aminoLetters.getD (i % 20) 'A'] := by
    rw [← hgi]
    exact grantham_key_structure i (List.mem_range.mpr hi4)
  have hkey_j : q.1 = String.mk [aminoLetters.getD (j / 20) 'A', aminoLetters.getD (j % 20) 'A'] := by
    rw [← hgj]
    exact grantham_key_structure j (List.mem_range.mpr hj4)
  have hswap : swapKey p.1 =
      String.mk [aminoLetters.getD (i % 20) 'A', aminoLetters.getD (i / 20) 'A'] :=
    swapKey_eq (by rw [hkey_i])
  rw [hkey_j, hswap] at hk
  have hk' : [aminoLetters.getD (j / 20) 'A', aminoLetters.getD (j % 20) 'A'] =
      [aminoLetters.getD (i % 20) 'A', aminoLetters.getD (i / 20) 'A'] :=
    congrArg String.data hk
  injection hk' with hd1 hrest
  injection hrest with hd2 hnil
  have hj20 : j / 20 = i % 20 :=
    aminoLetters_getD_inj _ (List.mem_range.mpr (by omega)) _ (List.mem_range.mpr (by omega)) hd1
  have hj20m : j % 20 = i / 20 :=
    aminoLetters_getD_inj _ (List.mem_range.mpr (by omega)) _ (List.mem_range.mpr (by omega)) hd2
  have hjeq : j = 20 * (i % 20) + i / 20 := by omega
  have hall := List.all_eq_true.mp grantham_mirror_bound i (List.mem_range.mpr hi4)
  simp only [Bool.and_eq_true, decide_eq_true_eq] at hall
  rw [hgi, ← hjeq, hgj] at hall
  rw [abs_sub_le_iff]
  exact ⟨hall.1, hall.2⟩

lemma schneider_perm :
    SCHNEIDER_WREDE_DISTMAT.Perm GRANTHAM_CHEMICAL_DISTANCE_MATRIX := by
  rw [schneider_eq_map_perm]
  have h1 := swPerm_perm_range.map
    (fun i => GRANTHAM_CHEMICAL_DISTANCE_MATRIX.getD i ("", 0))
  have h2 : (List.range 400).map (fun i => GRANTHAM_CHEMICAL_DISTANCE_MATRIX.getD i ("", 0)) =
      GRANTHAM_CHEMICAL_DISTANCE_MATRIX := by
    conv_lhs => rw [show (400 : ℕ) = GRANTHAM_CHEMICAL_DISTANCE_MATRIX.length from
      grantham_length.symm]
    exact map_getD_range _ _
  rwa [h2] at h1

lemma table_entry_bound :
    ∀ T, T = GRANTHAM_CHEMICAL_DISTANCE_MATRIX ∨ T = SCHNEIDER_WREDE_DISTMAT →
    ∀ p ∈ T, ∀ q ∈ T, q.1 = swapKey p.1 → |p.2 - q.2| ≤ 83 / 250 := by
  rintro T (rfl | rfl)
  · exact grantham_entry_bound
  · intro p hp q hq hk
    exact grantham_entry_bound p (schneider_perm.mem_iff.mp hp) q
      (schneider_perm.mem_iff.mp hq) hk

lemma grantham_keys_len2 : ∀ p ∈ GRANTHAM_CHEMICAL_DISTANCE_MATRIX, p.1.length = 2 := by
  intro p hp
  obtain ⟨i, hi, hpi⟩ := List.getElem_of_mem hp
  have hi4 : i < 400 := grantham_length ▸ hi
  have hgi : GRANTHAM_CHEMICAL_DISTANCE_MATRIX.getD i ("", 0) = p := by
    rw [getD_of_lt _ _ _ hi, hpi]
  have := grantham_key_structure i (List.mem_range.mpr hi4)
  rw [hgi] at this
  rw [this]
  rfl

lemma table_keys_len2 :
    ∀ T, T = GRANTHAM_CHEMICAL_DISTANCE_MATRIX ∨ T = SCHNEIDER_WREDE_DISTMAT →
    ∀ p ∈ T, p.1.length = 2 := by
  rintro T (rfl | rfl)
  · exact grantham_keys_len2
  · intro p hp
    exact grantham_keys_len2 p (schneider_perm.mem_iff.mp hp)

lemma grantham_self_entries : ∀ p ∈ GRANTHAM_CHEMICAL_DISTANCE_MATRIX, ∀ c : Char,
    p.1.data = [c, c] → p.2 = 0 := by
  intro p hp c hc
  have hall := List.all_eq_true.mp grantham_self_zero p hp
  rw [hc] at hall
  simpa using hall

lemma table_self_entries :
    ∀ T, T = GRANTHAM_CHEMICAL_DISTANCE_MATRIX ∨ T = SCHNEIDER_WREDE_DISTMAT →
    ∀ p ∈ T, ∀ c : Char, p.1.data = [c, c] → p.2 = 0 := by
  rintro T (rfl | rfl)
  · exact grantham_self_entries
  · intro p hp
    exact grantham_self_entries p (schneider_perm.mem_iff.mp hp)

lemma grantham_eq_map_range :
    GRANTHAM_CHEMICAL_DISTANCE_MATRIX =
      (List.range 400).map (fun i => GRANTHAM_CHEMICAL_DISTANCE_MATRIX.getD i ("", 0)) := by
  conv_lhs => rw [← map_getD_range GRANTHAM_CHEMICAL_DISTANCE_MATRIX ("", 0)]
  rw [grantham_length]

lemma getD_mem_of_lt {α : Type} (l : List α) (d : α) (n : ℕ) (h : n < l.length) :
    l.getD n d ∈ l := by
  rw [getD_of_lt _ _ _ h]
  exact l.getElem_mem h

lemma mem_lookup_of_nodup {α : Type} {t : List (String × α)}
    (hnd : (t.map Prod.fst).Nodup) {p : String × α} (hp : p ∈ t) :
    assocLookup t p.1 = some p.2 := by
  induction t with
  | nil => cases hp
  | cons q rest ih =>
    rw [List.map_cons, List.nodup_cons] at hnd
    rcases List.mem_cons.mp hp with rfl | hp'
    · unfold assocLookup
      rw [List.find?_cons_of_pos _ (by simp)]
      rfl
    · have hne : (q.1 == p.1) = false := by
        rw [beq_eq_false_iff_ne]
        intro he
        exact hnd.1 (by rw [he]; exact List.mem_map_of_mem Prod.fst hp')
      unfold assocLookup at ih ⊢
      rw [List.find?_cons_of_neg _ (by simp [hne])]
      exact ih hnd.2 hp'

lemma grantham_keys_nodup :
    (GRANTHAM_CHEMICAL_DISTANCE_MATRIX.map Prod.fst).Nodup := by
  rw [grantham_eq_map_range, List.map_map]
  apply List.Nodup.map_on ?_ (List.nodup_range 400)
  intro x hx y hy hxy
  have hx4 : x < 400 := List.mem_range.mp hx
  have hy4 : y < 400 := List.mem_range.mp hy
  have h1 := grantham_key_structure x hx
  have h2 := grantham_key_structure y hy
  simp only [Function.comp] at hxy
  rw [h1, h2] at hxy
  have hk := congrArg String.data hxy
  injection hk with e1 hrest
  injection hrest with e2 hnil
  have d1 : x / 20 = y / 20 :=
    aminoLetters_getD_inj _ (List.mem_range.mpr (by omega)) _ (List.mem_range.mpr (by omega)) e1
  have d2 : x % 20 = y % 20 :=
    aminoLetters_getD_inj _ (List.mem_range.mpr (by omega)) _ (List.mem_range.mpr (by omega)) e2
  omega

lemma grantham_swap_lookup (i : ℕ) (hi : i < 400) :
    assocLookup GRANTHAM_CHEMICAL_DISTANCE_MATRIX
        (swapKey ((GRANTHAM_CHEMICAL_DISTANCE_MATRIX.getD i ("", 0)).1)) =
      some ((GRANTHAM_CHEMICAL_DISTANCE_MATRIX.getD (20 * (i % 20) + i / 20) ("", 0)).2) := by
  have hm : 20 * (i % 20) + i / 20 < 400 := by omega
  have h1 := grantham_key_structure i (List.mem_range.mpr hi)
  have h2 := grantham_key_structure (20 * (i % 20) + i / 20) (List.mem_range.mpr hm)
  have e1 : (20 * (i % 20) + i / 20) / 20 = i % 20 := by omega
  have e2 : (20 * (i % 20) + i / 20) % 20 = i / 20 := by omega
  rw [e1, e2] at h2
  rw [h1, swapKey_eq rfl, ← h2]
  exact mem_lookup_of_nodup grantham_keys_nodup
    (getD_mem_of_lt _ _ _ (by rw [grantham_length]; exact hm))

lemma grantham_mirror_count_indexed :
    ((List.range 400).countP (fun i =>
      decide ((GRANTHAM_CHEMICAL_DISTANCE_MATRIX.getD (20 * (i % 20) + i / 20) ("", 0)).2 ≠
        (GRANTHAM_CHEMICAL_DISTANCE_MATRIX.getD i ("", 0)).2))) = 370 := by
  with_unfolding_all rfl

lemma grantham_mirror_count :
    GRANTHAM_CHEMICAL_DISTANCE_MATRIX.countP (fun p =>
      decide (assocLookup GRANTHAM_CHEMICAL_DISTANCE_MATRIX (swapKey p.1) ≠ some p.2)) = 370 := by
  have h0 := congrArg
    (List.countP (fun p =>
      decide (assocLookup GRANTHAM_CHEMICAL_DISTANCE_MATRIX (swapKey p.1) ≠ some p.2)))
    grantham_eq_map_range
  rw [h0, List.countP_map]
  have hcongr : ∀ i ∈ List.range 400,
      (((fun p => decide (assocLookup GRANTHAM_CHEMICAL_DISTANCE_MATRIX (swapKey p.1) ≠ some p.2)) ∘
        (fun i => GRANTHAM_CHEMICAL_DISTANCE_MATRIX.getD i ("", 0))) i = true ↔
      (fun i =>
        decide ((GRANTHAM_CHEMICAL_DISTANCE_MATRIX.getD (20 * (i % 20) + i / 20) ("", 0)).2 ≠
          (GRANTHAM_CHEMICAL_DISTANCE_MATRIX.getD i ("", 0)).2)) i = true) := by
    intro i hi
    simp only [Function.comp, decide_eq_true_eq]
    rw [grantham_swap_lookup i (List.mem_range.mp hi)]
    simp
  rw [List.countP_congr hcongr]
  exact grantham_mirror_count_indexed

lemma schneider_keys_nodup : (SCHNEIDER_WREDE_DISTMAT.map Prod.fst).Nodup :=
  ((schneider_perm.map Prod.fst).nodup_iff).mpr grantham_keys_nodup

lemma schneider_lookup_eq (k : String) :
    assocLookup SCHNEIDER_WREDE_DISTMAT k =
      assocLookup GRANTHAM_CHEMICAL_DISTANCE_MATRIX k := by
  cases h : assocLookup GRANTHAM_CHEMICAL_DISTANCE_MATRIX k with
  | some v =>
    exact mem_lookup_of_nodup schneider_keys_nodup
      (schneider_perm.mem_iff.mpr (assocLookup_mem h))
  | none =>
    rw [assocLookup_eq_none_iff] at h ⊢
    intro hk
    exact h (((schneider_perm.map Prod.fst).mem_iff).mp hk)

lemma schneider_length : SCHNEIDER_WREDE_DISTMAT.length = 400 :=
  schneider_perm.length_eq.trans grantham_length

lemma schneider_mirror_count :
    SCHNEIDER_WREDE_DISTMAT.countP (fun p =>
      decide (assocLookup SCHNEIDER_WREDE_DISTMAT (swapKey p.1) ≠ some p.2)) = 370 := by
  have h1 : ∀ p ∈ SCHNEIDER_WREDE_DISTMAT,
      (decide (assocLookup SCHNEIDER_WREDE_DISTMAT (swapKey p.1) ≠ some p.2) = true ↔
       decide (assocLookup GRANTHAM_CHEMICAL_DISTANCE_MATRIX (swapKey p.1) ≠ some p.2) = true) := by
    intro p _
    rw [schneider_lookup_eq]
  rw [List.countP_congr h1, schneider_perm.countP_eq]
  exact grantham_mirror_count

/-- C1, as stated, is false: both distance matrices store `0.112` under
the key `"A" + "C"` but `0.114` under `"C" + "A"`. -/
theorem C1_symmetry_counterexample :
    assocLookup GRANTHAM_CHEMICAL_DISTANCE_MATRIX ("A" ++ "C") = some 0.112 ∧
    assocLookup GRANTHAM_CHEMICAL_DISTANCE_MATRIX ("C" ++ "A") = some 0.114 ∧
    assocLookup SCHNEIDER_WREDE_DISTMAT ("A" ++ "C") = some 0.112 ∧
    assocLookup SCHNEIDER_WREDE_DISTMAT ("C" ++ "A") = some 0.114 ∧
    (0.112 : ℚ) ≠ 0.114 := by
  refine ⟨?_, ?_, ?_, ?_, by norm_num⟩ <;> with_unfolding_all rfl

/-- C1 (amended): for both distance matrices, whenever the keys `a ++ b`
and `b ++ a` are both present the two stored values differ by at most
`0.332 = 83 / 250`, but the equality claimed by the spec fails in
general: in each of the two 400-entry tables, exactly 370 entries store
a value different from the value stored under the reversed key (for
instance `"AC" ↦ 0.112` versus `"CA" ↦ 0.114`). -/
theorem C1_symmetry_bound :
    (∀ T, T = GRANTHAM_CHEMICAL_DISTANCE_MATRIX ∨ T = SCHNEIDER_WREDE_DISTMAT →
      ∀ (a b : String) (v w : ℚ),
        assocLookup T (a ++ b) = some v → assocLookup T (b ++ a) = some w →
        |v - w| ≤ 83 / 250) ∧
    GRANTHAM_CHEMICAL_DISTANCE_MATRIX.length = 400 ∧
    SCHNEIDER_WREDE_DISTMAT.length = 400 ∧
    GRANTHAM_CHEMICAL_DISTANCE_MATRIX.countP (fun p =>
      decide (assocLookup GRANTHAM_CHEMICAL_DISTANCE_MATRIX (swapKey p.1) ≠ some p.2)) = 370 ∧
    SCHNEIDER_WREDE_DISTMAT.countP (fun p =>
      decide (assocLookup SCHNEIDER_WREDE_DISTMAT (swapKey p.1) ≠ some p.2)) = 370 := by
  refine ⟨?_, grantham_length, schneider_length, grantham_mirror_count, schneider_mirror_count⟩
  intro T hT a b v w hv hw
  have hmv : (a ++ b, v) ∈ T := assocLookup_mem hv
  have hmw : (b ++ a, w) ∈ T := assocLookup_mem hw
  have hlen2 : (a ++ b : String).length = 2 := table_keys_len2 T hT _ hmv
  have hab : a.data.length + b.data.length = 2 := by
    have := hlen2
    rw [strLength_data, strData_append, List.length_append] at this
    exact this
  rcases ha : a.data with _ | ⟨c, arest⟩
  · -- a is empty, so both keys are the same string `b`
    have h1 : a ++ b = b := strExt (by rw [strData_append, ha]; rfl)
    have h2 : b ++ a = b := strExt (by rw [strData_append, ha, List.append_nil])
    rw [h1] at hv
    rw [h2, hv] at hw
    obtain rfl : v = w := Option.some_inj.mp hw
    rw [sub_self, abs_zero]
    norm_num
  · rcases hb : b.data with _ | ⟨d, brest⟩
    · -- b is empty, so both keys are the same string `a`
      have h1 : a ++ b = a := strExt (by rw [strData_append, hb, List.append_nil])
      have h2 : b ++ a = a := strExt (by rw [strData_append, hb]; rfl)
      rw [h1] at hv
      rw [h2, hv] at hw
      obtain rfl : v = w := Option.some_inj.mp hw
      rw [sub_self, abs_zero]
      norm_num
    · -- both nonempty: each must be a single character
      rw [ha, hb] at hab
      simp only [List.length_cons] at hab
      have harest : arest = [] := List.length_eq_zero.mp (by omega)
      have hbrest : brest = [] := List.length_eq_zero.mp (by omega)
      subst harest hbrest
      have hkey : (b ++ a : String) = swapKey (a ++ b) := by
        rw [swapKey_eq (show (a ++ b).data = [c, d] by rw [strData_append, ha, hb]; rfl)]
        exact strExt (by rw [strData_append, hb, ha]; rfl)
      exact table_entry_bound T hT (a ++ b, v) hmv (b ++ a, w) hmw hkey

/-- C1 witness: the amended bound applied to the pair `("A", "C")` of the
Grantham matrix. -/
theorem C1_symmetry_bound_witness : |(0.112 : ℚ) - 0.114| ≤ 83 / 250 :=
  C1_symmetry_bound.1 GRANTHAM_CHEMICAL_DISTANCE_MATRIX (Or.inl rfl) "A" "C" 0.112 0.114
    (by with_unfolding_all rfl) (by with_unfolding_all rfl)

/-- C7: in both distance matrices every stored self-pair key `a ++ a` has
value `0`. -/
theorem C7_self_distance :
    ∀ T, T = GRANTHAM_CHEMICAL_DISTANCE_MATRIX ∨ T = SCHNEIDER_WREDE_DISTMAT →
    ∀ (a : String) (v : ℚ), assocLookup T (a ++ a) = some v → v = 0 := by
  intro T hT a v hv
  have hm : (a ++ a, v) ∈ T := assocLookup_mem hv
  have hlen2 : (a ++ a : String).length = 2 := table_keys_len2 T hT _ hm
  have ha : a.data.length = 1 := by
    rw [strLength_data, strData_append, List.length_append] at hlen2
    omega
  obtain ⟨c, hc⟩ := List.length_eq_one.mp ha
  exact table_self_entries T hT _ hm c (by rw [strData_append, hc]; rfl)

/-- C7 witness: the self-distance theorem applied to `"A" ++ "A"` in the
Grantham matrix. -/
theorem C7_self_distance_witness :
    assocLookup GRANTHAM_CHEMICAL_DISTANCE_MATRIX ("A" ++ "A") = some 0.0 ∧ (0.0 : ℚ) = 0 :=
  ⟨by with_unfolding_all rfl,
   C7_self_distance GRANTHAM_CHEMICAL_DISTANCE_MATRIX (Or.inl rfl) "A" 0.0
     (by with_unfolding_all rfl)⟩

/-- C2: evaluation of the derived entries.  Three of the four spec claims
hold exactly; `ISOELECTRIC_POINTS["GLX"]` is stored as `4.35`, but the
arithmetic mean of the `GLU` and `GLN` entries is `4.365`, `0.015` away —
far outside the claimed `1e-6` tolerance and contradicting the source's
own inline comment (`# the average of E and Q`). -/
theorem C2_derived_entry_eval :
    (assocLookup ISOELECTRIC_POINTS "ASX" = some 6.87 ∧ ((2.98 : ℚ) + 10.76) / 2 = 6.87) ∧
    (assocLookup MOLECULAR_WEIGHTS "ASX" = some 132.6108 ∧
      ((133.1032 : ℚ) + 132.1184) / 2 = 132.6108) ∧
    (assocLookup MOLECULAR_WEIGHTS "GLX" = some 146.6375 ∧
      ((147.1299 : ℚ) + 146.1451) / 2 = 146.6375) ∧
    (assocLookup ISOELECTRIC_POINTS "GLX" = some 4.35 ∧
      ((3.08 : ℚ) + 5.65) / 2 = 4.365 ∧ ¬ |(4.35 : ℚ) - 4.365| ≤ 1 / 1000000) := by
  exact ⟨⟨rfl, by norm_num⟩, ⟨rfl, by norm_num⟩, ⟨rfl, by norm_num⟩,
    rfl, by norm_num, fun h => by have h1 := (abs_le.mp h).1; norm_num at h1⟩

/-- C3, as stated, is false: standardizing the single-entry table
`{"X": 5.0}` does not fail — `StandardScaler` replaces the zero standard
deviation by `1` and returns the finite value `0`. -/
theorem C3_degenerate_counterexample :
    assocLookup (standardizeTable [("X", (5 : ℚ))]) "X" = some [[(0 : ℝ)]] := by
  have h0 : popVar [(5 : ℚ)] = 0 := by norm_num [popVar, listMean]
  have hm : listMean [(5 : ℚ)] = 5 := by norm_num [listMean]
  rw [standardize_lookup,
    show assocLookup [("X", (5 : ℚ))] "X" = some 5 from rfl]
  simp [stdValue, scalerScale, h0, hm]

/-- C3 (amended): on any zero-variance input the standardization does not
fail; it returns a table with the same keys in which every standardized
value is the `(1, 1)` array `[[0]]` (`StandardScaler` replaces a zero
standard deviation by `1`, so the transform yields `(v - mean)/1 = 0`).
No `NaN`, infinity or error is produced. -/
theorem C3_degenerate_zero (tbl : List (String × ℚ))
    (h : popVar (tbl.map Prod.snd) = 0) :
    standardizeTable tbl = tbl.map (fun p => (p.1, [[(0 : ℝ)]])) :=
  standardize_degenerate tbl h

/-- C3 witness: the amended statement applied to the single-entry table
`{"X": 5.0}`. -/
theorem C3_degenerate_zero_witness :
    standardizeTable [("X", (5 : ℚ))] = [("X", [[(0 : ℝ)]])] := by
  have h0 : popVar ([("X", (5 : ℚ))].map Prod.snd) = 0 := by norm_num [popVar, listMean]
  simpa using C3_degenerate_zero [("X", (5 : ℚ))] h0

/-- C4: every entry of the two standardized tables is the `(1, 1)` array
containing `(v - mean) / popStd`, where `mean` is the arithmetic mean and
`popStd` the population standard deviation (denominator `N`) of the raw
table's values. -/
theorem C4_standardization_formula :
    (∀ (k : String) (v : ℚ), assocLookup MOLECULAR_WEIGHTS k = some v →
      assocLookup MOLECULAR_WEIGHTS_STD k =
        some [[((v : ℝ) - ((listMean (MOLECULAR_WEIGHTS.map Prod.snd) : ℚ) : ℝ)) /
          popStd (MOLECULAR_WEIGHTS.map Prod.snd)]]) ∧
    (∀ (k : String) (v : ℚ), assocLookup ISOELECTRIC_POINTS k = some v →
      assocLookup ISOELECTRIC_POINTS_STD k =
        some [[((v : ℝ) - ((listMean (ISOELECTRIC_POINTS.map Prod.snd) : ℚ) : ℝ)) /
          popStd (ISOELECTRIC_POINTS.map Prod.snd)]]) := by
  constructor
  · intro k v hv
    rw [show MOLECULAR_WEIGHTS_STD = standardizeTable MOLECULAR_WEIGHTS from rfl,
      standardize_lookup, hv]
    simp [stdValue, scalerScale, mw_popVar_ne]
  · intro k v hv
    rw [show ISOELECTRIC_POINTS_STD = standardizeTable ISOELECTRIC_POINTS from rfl,
      standardize_lookup, hv]
    simp [stdValue, scalerScale, iso_popVar_ne]

/-- C4 witness: the formula instantiated at the key `"ALA"` of both
tables. -/
theorem C4_standardization_formula_witness :
    assocLookup MOLECULAR_WEIGHTS_STD "ALA" =
      some [[(((89.0935 : ℚ) : ℝ) - ((listMean (MOLECULAR_WEIGHTS.map Prod.snd) : ℚ) : ℝ)) /
        popStd (MOLECULAR_WEIGHTS.map Prod.snd)]] ∧
    assocLookup ISOELECTRIC_POINTS_STD "ALA" =
      some [[(((6.11 : ℚ) : ℝ) - ((listMean (ISOELECTRIC_POINTS.map Prod.snd) : ℚ) : ℝ)) /
        popStd (ISOELECTRIC_POINTS.map Prod.snd)]] :=
  ⟨C4_standardization_formula.1 "ALA" 89.0935 rfl,
   C4_standardization_formula.2 "ALA" 6.11 rfl⟩

lemma scenario_popVar : popVar (scenarioTable.map Prod.snd) = 11476938163 / 37500000 := by
  norm_num [scenarioTable, popVar, listMean]

lemma scenario_mean : listMean (scenarioTable.map Prod.snd) = 93.7691 := by
  norm_num [scenarioTable, listMean]

lemma scenario_scale :
    scalerScale (scenarioTable.map Prod.snd) = popStd (scenarioTable.map Prod.snd) := by
  rw [scalerScale, if_neg]
  rw [scenario_popVar]
  norm_num

lemma scenario_std_sq :
    popStd (scenarioTable.map Prod.snd) ^ 2 = (11476938163 : ℝ) / 37500000 := by
  unfold popStd
  rw [Real.sq_sqrt]
  · rw [scenario_popVar]
    push_cast
    norm_num
  · rw [scenario_popVar]
    norm_num

lemma scenario_std_pos : 0 < popStd (scenarioTable.map Prod.snd) := by
  unfold popStd
  apply Real.sqrt_pos.mpr
  rw [scenario_popVar]
  norm_num

lemma scenario_gly_lookup :
    assocLookup (standardizeTable scenarioTable) "GLY" =
      some [[stdValue (scenarioTable.map Prod.snd) 75.0669]] := by
  rw [standardize_lookup]
  rfl

lemma scenario_gly_eq :
    stdValue (scenarioTable.map Prod.snd) 75.0669 =
      -((93511 : ℝ) / 5000) / popStd (scenarioTable.map Prod.snd) := by
  unfold stdValue
  rw [scenario_scale, scenario_mean]
  congr 1
  push_cast
  norm_num

/-- C5, as stated, is false: the standardized `"GLY"` value of the
scenario table is `-18.7022 / popStd ≈ -1.06904`, which is about
`0.0039` away from the claimed `-1.0729` — outside the claimed `1e-3`
tolerance. -/
theorem C5_scenario_counterexample :
    assocLookup (standardizeTable scenarioTable) "GLY" =
      some [[stdValue (scenarioTable.map Prod.snd) 75.0669]] ∧
    ¬ |stdValue (scenarioTable.map Prod.snd) 75.0669 - (-1.0729)| ≤ 1 / 1000 := by
  refine ⟨scenario_gly_lookup, fun habs => ?_⟩
  have hpos := scenario_std_pos
  have hsq := scenario_std_sq
  rw [scenario_gly_eq, neg_div] at habs
  have h2 := (abs_le.mp habs).2
  have h3 : (1.0719 : ℝ) ≤ (93511 / 5000) / popStd (scenarioTable.map Prod.snd) := by
    linarith
  have h4 : (1.0719 : ℝ) * popStd (scenarioTable.map Prod.snd) ≤ 93511 / 5000 :=
    (le_div_iff₀ hpos).mp h3
  have h5 : ((93511 : ℝ) / 5000) < 1.0719 * popStd (scenarioTable.map Prod.snd) := by
    have hlt : ((93511 : ℝ) / 5000) ^ 2 <
        (1.0719 * popStd (scenarioTable.map Prod.snd)) ^ 2 := by
      rw [mul_pow, hsq]
      norm_num
    exact lt_of_pow_lt_pow_left₀ 2 (mul_nonneg (by norm_num) hpos.le) hlt
  linarith

/-- C5 (amended): for the scenario table the mean is exactly `93.7691`,
the population standard deviation is within `1e-3` of `17.4943` (not
`17.497` as the spec says), and the standardized `"GLY"` value is within
`1e-3` of `-1.0690` (not `-1.0729`). -/
theorem C5_scenario_corrected :
    listMean (scenarioTable.map Prod.snd) = 93.7691 ∧
    |popStd (scenarioTable.map Prod.snd) - 17.4943| ≤ 1 / 1000 ∧
    assocLookup (standardizeTable scenarioTable) "GLY" =
      some [[stdValue (scenarioTable.map Prod.snd) 75.0669]] ∧
    |stdValue (scenarioTable.map Prod.snd) 75.0669 + 1.069| ≤ 1 / 1000 := by
  have hpos := scenario_std_pos
  have hsq := scenario_std_sq
  refine ⟨scenario_mean, ?_, scenario_gly_lookup, ?_⟩
  · rw [abs_le]
    have hlo : (17.4933 : ℝ) ≤ popStd (scenarioTable.map Prod.snd) :=
      le_of_pow_le_pow_left₀ two_ne_zero hpos.le (by rw [hsq]; norm_num)
    have hup : popStd (scenarioTable.map Prod.snd) ≤ 17.4953 :=
      le_of_pow_le_pow_left₀ two_ne_zero (by norm_num) (by rw [hsq]; norm_num)
    constructor <;> linarith
  · rw [scenario_gly_eq, neg_div, abs_le]
    have h68 : (1.068 : ℝ) * popStd (scenarioTable.map Prod.snd) ≤ 93511 / 5000 :=
      le_of_pow_le_pow_left₀ two_ne_zero (by norm_num)
        (by rw [mul_pow, hsq]; norm_num)
    have h70 : ((93511 : ℝ) / 5000) ≤ 1.07 * popStd (scenarioTable.map Prod.snd) :=
      le_of_pow_le_pow_left₀ two_ne_zero (mul_nonneg (by norm_num) hpos.le)
        (by rw [mul_pow, hsq]; norm_num)
    have hd68 : (1.068 : ℝ) ≤ (93511 / 5000) / popStd (scenarioTable.map Prod.snd) :=
      (le_div_iff₀ hpos).mpr h68
    have hd70 : (93511 : ℝ) / 5000 / popStd (scenarioTable.map Prod.snd) ≤ 1.07 :=
      (div_le_iff₀ hpos).mpr h70
    constructor <;> linarith

/-- C6: standardization preserves the key list of both tables exactly. -/
theorem C6_keyset_preserved :
    ISOELECTRIC_POINTS_STD.map Prod.fst = ISOELECTRIC_POINTS.map Prod.fst ∧
    MOLECULAR_WEIGHTS_STD.map Prod.fst = MOLECULAR_WEIGHTS.map Prod.fst :=
  ⟨standardize_keys ISOELECTRIC_POINTS, standardize_keys MOLECULAR_WEIGHTS⟩

/-- C8: a lookup fails exactly when the key is outside the table's key
list (and is deterministic, being a function); in particular `"ALA"`,
which legitimately has no hydrogen-bond donors, is observably absent from
`HYDROGEN_BOND_DONORS`, while the covered key `"SER"` returns its stored
record rather than any default. -/
theorem C8_lookup_contract :
    (∀ (α : Type) (t : List (String × α)) (k : String),
      assocLookup t k = none ↔ k ∉ t.map Prod.fst) ∧
    assocLookup HYDROGEN_BOND_DONORS "ALA" = none ∧
    assocLookup HYDROGEN_BOND_DONORS "SER" = some [("OG", 1)] :=
  ⟨fun _ t k => assocLookup_eq_none_iff t k, rfl, rfl⟩

/-- C9: every value of the standardized tables is a `(1, 1)` array — a
one-element list of one-element lists — whose sole element is the
standardized scalar of the corresponding raw value. -/
theorem C9_std_values_are_matrices :
    (∀ (k : String) (m : List (List ℝ)), assocLookup ISOELECTRIC_POINTS_STD k = some m →
      m.length = 1 ∧ (∀ r ∈ m, r.length = 1) ∧
      ∃ v : ℚ, assocLookup ISOELECTRIC_POINTS k = some v ∧
        m = [[stdValue (ISOELECTRIC_POINTS.map Prod.snd) v]]) ∧
    (∀ (k : String) (m : List (List ℝ)), assocLookup MOLECULAR_WEIGHTS_STD k = some m →
      m.length = 1 ∧ (∀ r ∈ m, r.length = 1) ∧
      ∃ v : ℚ, assocLookup MOLECULAR_WEIGHTS k = some v ∧
        m = [[stdValue (MOLECULAR_WEIGHTS.map Prod.snd) v]]) := by
  constructor
  · intro k m hm
    rw [show ISOELECTRIC_POINTS_STD = standardizeTable ISOELECTRIC_POINTS from rfl,
      standardize_lookup] at hm
    obtain ⟨v, hv, hm⟩ := Option.map_eq_some'.mp hm
    exact ⟨by rw [← hm]; rfl, by rw [← hm]; simp, v, hv, hm.symm⟩
  · intro k m hm
    rw [show MOLECULAR_WEIGHTS_STD = standardizeTable MOLECULAR_WEIGHTS from rfl,
      standardize_lookup] at hm
    obtain ⟨v, hv, hm⟩ := Option.map_eq_some'.mp hm
    exact ⟨by rw [← hm]; rfl, by rw [← hm]; simp, v, hv, hm.symm⟩

/-- C9 witness: the shape statement applied at the key `"ALA"` of both
standardized tables. -/
theorem C9_std_values_are_matrices_witness :
    ([[stdValue (ISOELECTRIC_POINTS.map Prod.snd) 6.11]] : List (List ℝ)).length = 1 ∧
    ([[stdValue (MOLECULAR_WEIGHTS.map Prod.snd) 89.0935]] : List (List ℝ)).length = 1 :=
  ⟨(C9_std_values_are_matrices.1 "ALA" [[stdValue (ISOELECTRIC_POINTS.map Prod.snd) 6.11]]
      (by rw [show ISOELECTRIC_POINTS_STD = standardizeTable ISOELECTRIC_POINTS from rfl,
        standardize_lookup]; rfl)).1,
   (C9_std_values_are_matrices.2 "ALA" [[stdValue (MOLECULAR_WEIGHTS.map Prod.snd) 89.0935]]
      (by rw [show MOLECULAR_WEIGHTS_STD = standardizeTable MOLECULAR_WEIGHTS from rfl,
        standardize_lookup]; rfl)).1⟩

lemma bond_pair_prop : ∀ p ∈ BOND_LENGTHS, ∀ q ∈ BOND_ORDERS, p.1 = q.1 →
    ((((assocLookup p.2 "i_t").isSome ∧ (assocLookup p.2 "w_dt").isSome) ↔
      (p.1 = "C-C" ∨ p.1 = "C-N")) ∧
     (q.2 = [1, 2, 3] ↔ ((assocLookup p.2 "i_t").isSome ∧ (assocLookup p.2 "w_dt").isSome)) ∧
     (q.2 = [1, 2] ↔ ¬((assocLookup p.2 "i_t").isSome ∧ (assocLookup p.2 "w_dt").isSome))) := by
  decide

/-- C10: `BOND_ORDERS` and `BOND_LENGTHS` have the same 16-element key
list, and the allowed orders are `[1, 2, 3]` exactly when the length
record carries the triple-bond fields `"i_t"` and `"w_dt"` (exactly the
keys `"C-C"` and `"C-N"`), and `[1, 2]` otherwise. -/
theorem C10_bond_tables_consistent :
    BOND_ORDERS.map Prod.fst = BOND_LENGTHS.map Prod.fst ∧
    BOND_LENGTHS.length = 16 ∧
    ∀ (k : String) (bl : List (String × ℚ)) (bo : List ℕ),
      assocLookup BOND_LENGTHS k = some bl → assocLookup BOND_ORDERS k = some bo →
      ((((assocLookup bl "i_t").isSome ∧ (assocLookup bl "w_dt").isSome) ↔
        (k = "C-C" ∨ k = "C-N")) ∧
       (bo = [1, 2, 3] ↔ ((assocLookup bl "i_t").isSome ∧ (assocLookup bl "w_dt").isSome)) ∧
       (bo = [1, 2] ↔ ¬((assocLookup bl "i_t").isSome ∧ (assocLookup bl "w_dt").isSome))) := by
  refine ⟨rfl, rfl, fun k bl bo hbl hbo => ?_⟩
  exact bond_pair_prop (k, bl) (assocLookup_mem hbl) (k, bo) (assocLookup_mem hbo) rfl

/-- C10 witness: the consistency statement instantiated at the key
`"C-C"`. -/
theorem C10_bond_tables_consistent_witness :
    ((assocLookup [("i_s", (1.49 : ℚ)), ("i_d", 1.31), ("i_t", 1.18), ("w_sd", 1.38),
        ("w_dt", 1.21)] "i_t").isSome ∧
     (assocLookup [("i_s", (1.49 : ℚ)), ("i_d", 1.31), ("i_t", 1.18), ("w_sd", 1.38),
        ("w_dt", 1.21)] "w_dt").isSome) ↔
      (("C-C" : String) = "C-C" ∨ ("C-C" : String) = "C-N") :=
  (C10_bond_tables_consistent.2.2 "C-C"
    [("i_s", (1.49 : ℚ)), ("i_d", 1.31), ("i_t", 1.18), ("w_sd", 1.38), ("w_dt", 1.21)]
    [1, 2, 3] rfl rfl).1

end ResiAtoms
